import Mathlib

/-!
Shallow embedding of `src/main.py` (class `DocumentDownloader`) of the
aipdownloader repository, together with theorems settling the frozen claims
about its specification.

Modelling conventions, stated once here:

* Instants (`datetime` values) are modelled by the naive six-field record
  `DateTime`; Python `datetime` comparison is field-lexicographic, which
  `DateTime.lt` reproduces.  The host timezone is assumed to be UTC, so
  `datetime.fromtimestamp`/`datetime.timestamp` round-trip to the identity and
  are elided.
* The filesystem is modelled as an association list from paths to files.  A
  path is a pair (subdirectory, filename) relative to the sync target
  directory, mirroring the two-level `target/section/name` layout the script
  uses.  Each file carries a content byte list and the three POSIX stat
  instants `st_atime`, `st_mtime`, `st_ctime`.  `os.utime(p, (a, m))` sets
  `st_atime := a` and `st_mtime := m` and, per POSIX, marks the status-change
  time `st_ctime` as the current wall-clock instant; it cannot set `st_ctime`
  to a caller-chosen value.  A plain file write sets all three to the current
  instant.  Directory creation (`mkdir`) is a no-op in this model because
  directories are implicit.
* `requests.Response.headers` is a `CaseInsensitiveDict`: indexing a missing
  header raises `KeyError`.  A header slot is therefore modelled by `Hdr`:
  `missing` (indexing raises), `empty` (present but falsy, so guards like
  `if last_mod_header:` skip), or `val t` (present; the value is assumed to be
  a well-formed HTTP date, modelled directly by its parsed `DateTime` --
  malformed date strings, which would raise `ValueError`, are outside every
  claim).
* Python exceptions are modelled by `Except Err`; because an exception does
  not roll back filesystem effects, every effectful function returns its
  (possibly modified) filesystem state alongside the `Except` value.
* The HTML-scraping descriptor source (`get_tags`/`get_documents`) is an
  out-of-scope collaborator per the spec; it enters the model as the function
  argument `docsOf : String → List Document`.
-/

namespace AIP

/-- Naive `datetime` value (no timezone), ordered lexicographically. -/
structure DateTime where
  year : Nat
  month : Nat
  day : Nat
  hour : Nat
  minute : Nat
  second : Nat
deriving DecidableEq, Repr

/-- Python `datetime.__lt__`: field-lexicographic comparison. -/
def DateTime.lt (a b : DateTime) : Bool :=
  if a.year ≠ b.year then decide (a.year < b.year)
  else if a.month ≠ b.month then decide (a.month < b.month)
  else if a.day ≠ b.day then decide (a.day < b.day)
  else if a.hour ≠ b.hour then decide (a.hour < b.hour)
  else if a.minute ≠ b.minute then decide (a.minute < b.minute)
  else decide (a.second < b.second)

/-- Exceptions that the modelled code can raise. -/
inductive Err where
  | httpError
  | keyError
  | valueError
  | connError
deriving DecidableEq, Repr

/-- A response header slot (see the module comment). -/
inductive Hdr where
  | missing
  | empty
  | val (t : DateTime)
deriving DecidableEq, Repr

/-- Decidable equality for `Except`, so that concrete runs of the model can be
checked by `decide`. -/
instance {ε α : Type} [DecidableEq ε] [DecidableEq α] : DecidableEq (Except ε α) :=
  fun a b =>
    match a, b with
    | .error e, .error f =>
      if h : e = f then isTrue (by rw [h])
      else isFalse (by intro hc; injection hc with h2; exact h h2)
    | .error _, .ok _ => isFalse (by intro hc; exact Except.noConfusion hc)
    | .ok _, .error _ => isFalse (by intro hc; exact Except.noConfusion hc)
    | .ok x, .ok y =>
      if h : x = y then isTrue (by rw [h])
      else isFalse (by intro hc; injection hc with h2; exact h h2)

/-- One document descriptor: the `Document` class of `main.py`, reduced to its
two derived properties `name` (display name) and `href` (resource locator). -/
structure Document where
  name : String
  href : String
deriving DecidableEq, Repr

/-! ## Effective-date pattern

`document_is_up_to_date` begins with
`re.match(r'.* effective (\d{1,2})(?: to \d{1,2})?( \w+ \d{4})', document.name)`.
The functions below reproduce Python's backtracking semantics for exactly this
pattern: `re.match` anchors at the start; the greedy `.*` (which cannot cross a
newline) commits to the largest feasible start position of the tail; `\d{1,2}`
and the optional `(?: to \d{1,2})?` are greedy with backtracking into their
continuations; `\w+` is a maximal word-char run (ASCII approximation of `\w`).
`scanMatch` returns the two capture groups (as char lists) of the match Python
would find, or `none` when the pattern does not match. -/

/-- ASCII approximation of Python `\w`. -/
def isWordChar (c : Char) : Bool := c.isAlphanum || c = '_'

/-- Consume a literal. -/
def lit : List Char → List Char → Option (List Char)
  | [], s => some s
  | _ :: _, [] => none
  | p :: ps, c :: cs => if c = p then lit ps cs else none

/-- Maximal run of word characters and the remainder. -/
def takeWordRun : List Char → List Char × List Char
  | [] => ([], [])
  | c :: cs =>
    if isWordChar c then
      let (w, r) := takeWordRun cs
      (c :: w, r)
    else ([], c :: cs)

/-- Match group 2, `( \w+ \d{4})`, returning its capture.  The `\w+` run is
maximal; shortening it cannot help because the shortened run would end at a
word character where the pattern requires a space. -/
def matchG2 (s : List Char) : Option (List Char) :=
  match s with
  | ' ' :: s1 =>
    match takeWordRun s1 with
    | ([], _) => none
    | (w, r) =>
      match r with
      | ' ' :: a :: b :: c :: d :: _ =>
        if a.isDigit && b.isDigit && c.isDigit && d.isDigit then
          some ((' ' :: w) ++ ' ' :: [a, b, c, d])
        else none
      | _ => none
  | _ => none

/-- Match the non-capturing optional part `(?: to \d{1,2})` followed by group 2
(greedy: two digits before one). -/
def matchToOpt (s : List Char) : Option (List Char) :=
  match lit (" to ".toList) s with
  | none => none
  | some r =>
    (match r with
     | a :: b :: r2 => if a.isDigit && b.isDigit then matchG2 r2 else none
     | _ => none)
    <|>
    (match r with
     | a :: r2 => if a.isDigit then matchG2 r2 else none
     | _ => none)

/-- After the day digits: the optional ` to \d{1,2}` is tried first (greedy),
then dropped. -/
def matchAfterDay (s : List Char) : Option (List Char) :=
  matchToOpt s <|> matchG2 s

/-- Match `(\d{1,2})` (greedy, two digits before one) and the rest of the
tail; returns (group 1, group 2). -/
def matchDayOpt (s : List Char) : Option (List Char × List Char) :=
  (match s with
   | a :: b :: r =>
     if a.isDigit && b.isDigit then (matchAfterDay r).map (fun g2 => ([a, b], g2))
     else none
   | _ => none)
  <|>
  (match s with
   | a :: r => if a.isDigit then (matchAfterDay r).map (fun g2 => ([a], g2)) else none
   | _ => none)

/-- The pattern tail ` effective (\d{1,2})(?: to \d{1,2})?( \w+ \d{4})`. -/
def tailMatch (s : List Char) : Option (List Char × List Char) :=
  match lit (" effective ".toList) s with
  | none => none
  | some r => matchDayOpt r

/-- Whole-pattern match: the greedy `.*` picks the largest start position of
the tail whose preceding characters contain no newline. -/
def scanMatch : List Char → Option (List Char × List Char)
  | [] => none
  | c :: cs =>
    if c = '\n' then tailMatch (c :: cs)
    else scanMatch cs <|> tailMatch (c :: cs)

/-! ## `datetime.strptime(document_effective, '%d %B %Y')`

The string fed to `strptime` is always `group(1) + group(2)`, i.e. one or two
digits, a space, a `\w+` word, a space, four digits.  On strings of that shape
`strptime('%d %B %Y')` succeeds exactly when the word is a full English month
name (case-insensitively) and the day is a valid day of that month (Python
validates the day both in the `%d` lexer, 1..31, and in the `datetime`
constructor against the month length); it then yields midnight of that date. -/

/-- Gregorian leap year. -/
def isLeap (y : Nat) : Bool := y % 4 == 0 && (y % 100 != 0 || y % 400 == 0)

/-- Days in a month (month 1..12). -/
def daysInMonth (y m : Nat) : Nat :=
  match m with
  | 1 => 31 | 2 => if isLeap y then 29 else 28 | 3 => 31 | 4 => 30
  | 5 => 31 | 6 => 30 | 7 => 31 | 8 => 31
  | 9 => 30 | 10 => 31 | 11 => 30 | 12 => 31
  | _ => 0

/-- Split a char list at a separator character. -/
def splitOnChar (sep : Char) : List Char → List (List Char)
  | [] => [[]]
  | c :: cs =>
    match splitOnChar sep cs with
    | [] => [[]]
    | h :: t => if c = sep then [] :: h :: t else (c :: h) :: t

/-- Split at spaces (the `s.split(' ')` shape that `strptime`'s format
`'%d %B %Y'` imposes: three fields separated by single literal spaces). -/
def splitSp (s : List Char) : List (List Char) := splitOnChar ' ' s

/-- Numeric value of a nonempty all-digit field. -/
def digitsVal (cs : List Char) : Option Nat :=
  if cs ≠ [] ∧ cs.all Char.isDigit then
    some (cs.foldl (fun n c => n * 10 + (c.toNat - 48)) 0)
  else none

/-- `%B`: full English month name, case-insensitive. -/
def monthIndex (w : List Char) : Option Nat :=
  let l := w.map Char.toLower
  if l = "january".toList then some 1
  else if l = "february".toList then some 2
  else if l = "march".toList then some 3
  else if l = "april".toList then some 4
  else if l = "may".toList then some 5
  else if l = "june".toList then some 6
  else if l = "july".toList then some 7
  else if l = "august".toList then some 8
  else if l = "september".toList then some 9
  else if l = "october".toList then some 10
  else if l = "november".toList then some 11
  else if l = "december".toList then some 12
  else none

/-- `datetime.strptime(s, '%d %B %Y')` on strings of the shape produced by the
effective-date pattern; `none` models the `ValueError` raise. -/
def strptimeDMY (s : List Char) : Option DateTime :=
  match splitSp s with
  | [d, m, y] =>
    match digitsVal d, monthIndex m, digitsVal y with
    | some dv, some mv, some yv =>
      if 1 ≤ dv ∧ dv ≤ daysInMonth yv mv then some ⟨yv, mv, dv, 0, 0, 0⟩ else none
    | _, _, _ => none
  | _ => none

/-! ## Filesystem model -/

/-- File content: a byte list. -/
abbrev Bytes := List Nat

/-- A regular file with its POSIX stat instants. -/
structure DFile where
  content : Bytes
  atime : DateTime
  mtime : DateTime
  ctime : DateTime
deriving DecidableEq, Repr

/-- A path relative to the sync target directory: (subdirectory, filename). -/
abbrev Pth := String × String

/-- The filesystem: an association list from paths to files. -/
abbrev FS := List (Pth × DFile)

/-- Look a path up (`Path.exists` / `Path.stat`). -/
def findFile : FS → Pth → Option DFile
  | [], _ => none
  | e :: rest, p => if e.1 = p then some e.2 else findFile rest p

/-- Remove a path's entry. -/
def removeFile : FS → Pth → FS
  | [], _ => []
  | e :: rest, p => if e.1 = p then removeFile rest p else e :: removeFile rest p

/-- Create or overwrite the file at a path. -/
def setFile (fs : FS) (p : Pth) (f : DFile) : FS :=
  (p, f) :: removeFile fs p

/-- `shutil.rmtree(target/d, ignore_errors=True)`: drop every file in
subdirectory `d`. -/
def rmtreeDir : FS → String → FS
  | [], _ => []
  | e :: rest, d => if e.1.1 = d then rmtreeDir rest d else e :: rmtreeDir rest d

/-- `(target/d).exists()`, approximated as: some file lives in `d` (empty
directories are not modelled). -/
def dirHasFiles : FS → String → Bool
  | [], _ => false
  | e :: rest, d => if e.1.1 = d then true else dirHasFiles rest d

/-! ## Transport model -/

/-- The HEAD response seen by `document_is_up_to_date` (lines 88-98):
`raise_for_status` outcome and the two headers the code indexes. -/
structure HeadResp where
  ok : Bool
  contentType : Option String
  lastModified : Hdr

/-- The streamed GET response seen by `download_document` (lines 57-73).
`chunks` are the body chunks successfully yielded by `iter_content`;
`streamErr = some e` means the stream raised `e` after yielding them. -/
structure GetResp where
  ok : Bool
  chunks : List Bytes
  streamErr : Option Err
  lastModified : Hdr

/-- The transport collaborator: per-document HEAD metadata and GET response
(deterministic within a run; "no upstream changes" across two runs is
modelled by reusing one `Transport`). -/
structure Transport where
  headOf : Document → HeadResp
  getOf : Document → GetResp

/-! ## The core functions of `DocumentDownloader` -/

/-- Lines 87-110 of `document_is_up_to_date`: the metadata (HEAD) check.
`head.raise_for_status()` models as `httpError`; `head.headers['Content-Type']`
and `head.headers['Last-Modified']` raise `KeyError` when the header is
absent; a present-but-empty `Last-Modified` leaves `src_last_mod = None`.
`dest_ctime` is read from `dest_file.stat().st_ctime`; the comparison
`dest_ctime > src_last_mod` is strict. -/
def metadataCheck (tr : Transport) (doc : Document) (dest : Pth) (fs : FS) :
    Except Err Bool :=
  let h := tr.headOf doc
  if h.ok = false then .error .httpError
  else
    match h.contentType with
    | none => .error .keyError
    | some ct =>
      if ct ≠ "application/pdf" then .ok true
      else
        match h.lastModified with
        | .missing => .error .keyError
        | lm =>
          let srcLastMod : Option DateTime :=
            match lm with
            | .val t => some t
            | _ => none
          let destCtime : Option DateTime := (findFile fs dest).map (fun f => f.ctime)
          match destCtime, srcLastMod with
          | some dc, some slm => if DateTime.lt slm dc then .ok true else .ok false
          | _, _ => .ok false

/-- Lines 75-110, `document_is_up_to_date(document, dest_file)`: the
effective-date gate (lines 76-85), then the metadata check.  The Python
function returns a single `bool` -- `True` covers the NotYetEffective,
InvalidContentType and UpToDate verdicts alike (only the log line differs),
`False` is NeedsFetch.  It performs no filesystem writes; the state is
threaded to make that a provable fact rather than a typing convention. -/
def document_is_up_to_date (tr : Transport) (doc : Document) (dest : Pth)
    (now : DateTime) (fs : FS) : Except Err Bool × FS :=
  match scanMatch doc.name.toList with
  | some (g1, g2) =>
    match strptimeDMY (g1 ++ g2) with
    | none => (.error .valueError, fs)
    | some eff =>
      if DateTime.lt now eff then (.ok true, fs)
      else (metadataCheck tr doc dest fs, fs)
  | none => (metadataCheck tr doc dest fs, fs)

/-- Lines 55-73, `download_document(document, dest_file)`.  The body is
streamed directly into `dest_file` (no temporary file), so a mid-stream
failure leaves the partial content behind; `resp.headers['Last-Modified']`
raises `KeyError` when absent (after the body was already written); when the
header parses, `os.utime(dest_file, (t, t))` sets `st_atime := t`,
`st_mtime := t` and, per POSIX, `st_ctime := now`. -/
def download_document (tr : Transport) (doc : Document) (dest : Pth)
    (now : DateTime) (fs : FS) : Except Err Unit × FS :=
  let r := tr.getOf doc
  if r.ok = false then (.error .httpError, fs)
  else
    let fs1 := setFile fs dest ⟨r.chunks.flatten, now, now, now⟩
    match r.streamErr with
    | some e => (.error e, fs1)
    | none =>
      match r.lastModified with
      | .missing => (.error .keyError, fs1)
      | .empty => (.ok (), fs1)
      | .val t => (.ok (), setFile fs1 dest ⟨r.chunks.flatten, t, t, now⟩)

/-- Line 150: `dest_file = section_path / Path(document.href).name` -- for
every section, the destination filename is the final path segment of the
locator.  `Path(href).name` is the last nonempty slash-separated segment. -/
def lastSegment (href : String) : String :=
  (((splitOnChar '/' href.toList).filter (fun s => decide (s ≠ []))).getLastD []).asString

/-- Destination path of a descriptor in a section. -/
def destPath (sec : String) (doc : Document) : Pth := (sec, lastSegment doc.href)

/-- The accumulated bundle: ordered (path, bookmark label) pairs, as fed to
`PdfMerger.append` on line 164. -/
abbrev Bundle := List (Pth × String)

/-- Lines 149-164: process one section's descriptor list in order.  The
freshness check on line 153 is OUTSIDE the `try` block, so an exception it
raises propagates and aborts the whole run; only `download_document` (line
157) is wrapped in `try/except Exception`, whose handler skips the document.
The bookmark label (line 162) is the bare name for SUP and
`f'{section} {name}'` otherwise. -/
def syncSection (tr : Transport) (sec : String) :
    List Document → DateTime → FS → Bundle → Except Err (FS × Bundle)
  | [], _, fs, b => .ok (fs, b)
  | doc :: rest, now, fs, b =>
    let u := document_is_up_to_date tr doc (destPath sec doc) now fs
    match u.1 with
    | .error e => .error e
    | .ok true => syncSection tr sec rest now u.2 b
    | .ok false =>
      let d := download_document tr doc (destPath sec doc) now u.2
      match d.1 with
      | .error _ => syncSection tr sec rest now d.2 b
      | .ok _ =>
        syncSection tr sec rest now d.2
          (b ++ [(destPath sec doc, if sec = "SUP" then doc.name else sec ++ " " ++ doc.name)])

/-- The fixed, ordered section table (keys of `DocumentDownloader.sections`;
the URL values belong to the out-of-scope descriptor source). -/
def sectionsList : List String := ["GEN", "ENR", "AD", "SUP"]

/-- Lines 143-147: before processing a section, wipe its subdirectory iff it
is `SUP` and it exists (`shutil.rmtree(..., ignore_errors=True)`); `mkdir` is
a no-op in this model. -/
def wipeStep (sec : String) (fs : FS) : FS :=
  if sec = "SUP" ∧ dirHasFiles fs "SUP" = true then rmtreeDir fs "SUP" else fs

/-- Lines 140-164: iterate the sections in order. -/
def syncSections (tr : Transport) (docsOf : String → List Document)
    (now : DateTime) : List String → FS → Bundle → Except Err (FS × Bundle)
  | [], fs, b => .ok (fs, b)
  | sec :: rest, fs, b =>
    match syncSection tr sec (docsOf sec) now (wipeStep sec fs) b with
    | .error e => .error e
    | .ok (fs2, b2) => syncSections tr docsOf now rest fs2 b2

/-- An injective-enough rendering of the finished bundle into bytes, standing
for the merged PDF that `aip_bundle.write` produces: the ordered (path, label)
entries determine the output. -/
def encodeBundle (b : Bundle) : Bytes :=
  (b.map (fun e =>
    ((e.1.1 ++ "/" ++ e.1.2).toList.map Char.toNat) ++ [0]
      ++ (e.2.toList.map Char.toNat) ++ [1])).flatten

/-- The name of the output artifact, at the target root. -/
def bundlePath : Pth := ("", "AIP New Zealand.pdf")

/-- Lines 133-169, `sync(target_path)`: process every section, then write the
bundle to `target_path / 'AIP New Zealand.pdf'`.  Only documents that were
downloaded THIS run were appended (line 153 `continue` skips the append for
up-to-date documents).  The run's wall-clock instant is `now`. -/
def sync (tr : Transport) (docsOf : String → List Document) (now : DateTime)
    (fs : FS) : Except Err (FS × Bundle) :=
  match syncSections tr docsOf now sectionsList fs [] with
  | .error e => .error e
  | .ok (fs1, b) => .ok (setFile fs1 bundlePath ⟨encodeBundle b, now, now, now⟩, b)

/-! ## Helper lemmas -/

theorem findFile_removeFile (fs : FS) (p q : Pth) (h : q ≠ p) :
    findFile (removeFile fs p) q = findFile fs q := by
  induction fs with
  | nil => rfl
  | cons e rest ih =>
    by_cases he : e.1 = p
    · have h1 : removeFile (e :: rest) p = removeFile rest p := by
        simp [removeFile, he]
      have h2 : findFile (e :: rest) q = findFile rest q := by
        simp only [findFile]
        rw [if_neg (fun hq => h (hq.symm.trans he))]
      rw [h1, h2, ih]
    · have h1 : removeFile (e :: rest) p = e :: removeFile rest p := by
        simp [removeFile, he]
      rw [h1]
      simp only [findFile, ih]

theorem findFile_setFile (fs : FS) (p q : Pth) (f : DFile) :
    findFile (setFile fs p f) q = if p = q then some f else findFile fs q := by
  simp only [setFile, findFile]
  by_cases h : p = q
  · simp [h]
  · simp only [if_neg h]
    exact findFile_removeFile fs p q (fun hq => h hq.symm)

theorem findFile_rmtreeDir (fs : FS) (d : String) (q : String) :
    findFile (rmtreeDir fs d) (d, q) = none := by
  induction fs with
  | nil => rfl
  | cons e rest ih =>
    simp only [rmtreeDir]
    by_cases he : e.1.1 = d
    · simpa [he]
    · simp only [if_neg he, findFile, ih]
      rw [if_neg]
      intro hq
      exact he (congrArg Prod.fst hq)

theorem dirHasFiles_false_findFile (fs : FS) (d q : String)
    (h : dirHasFiles fs d = false) : findFile fs (d, q) = none := by
  induction fs with
  | nil => rfl
  | cons e rest ih =>
    simp only [dirHasFiles] at h
    by_cases he : e.1.1 = d
    · rw [if_pos he] at h
      exact absurd h (by simp)
    · rw [if_neg he] at h
      simp only [findFile, ih h]
      rw [if_neg]
      intro hq
      exact he (congrArg Prod.fst hq)

/-- After the SUP wipe step no file remains in the SUP subdirectory. -/
theorem wipeStep_sup_findFile (fs : FS) (q : String) :
    findFile (wipeStep "SUP" fs) ("SUP", q) = none := by
  unfold wipeStep
  by_cases h : dirHasFiles fs "SUP" = true
  · rw [if_pos ⟨rfl, h⟩]
    exact findFile_rmtreeDir fs "SUP" q
  · rw [if_neg (fun hc => h hc.2)]
    exact dirHasFiles_false_findFile fs "SUP" q (by simpa using h)

theorem wipeStep_of_ne (sec : String) (fs : FS) (h : sec ≠ "SUP") :
    wipeStep sec fs = fs := by
  unfold wipeStep
  rw [if_neg (fun hc => h hc.1)]

/-- The freshness check never modifies the filesystem state it threads. -/
theorem document_is_up_to_date_fs (tr : Transport) (doc : Document) (dest : Pth)
    (now : DateTime) (fs : FS) :
    (document_is_up_to_date tr doc dest now fs).2 = fs := by
  unfold document_is_up_to_date
  rcases scanMatch doc.name.toList with _ | ⟨g1, g2⟩
  · rfl
  · simp only
    rcases strptimeDMY (g1 ++ g2) with _ | eff
    · rfl
    · simp only
      split <;> rfl

/-- `download_document` touches no path other than `dest`. -/
theorem download_document_findFile (tr : Transport) (doc : Document)
    (dest : Pth) (now : DateTime) (fs : FS) (q : Pth) (h : q ≠ dest) :
    findFile (download_document tr doc dest now fs).2 q = findFile fs q := by
  unfold download_document
  by_cases hok : (tr.getOf doc).ok = false
  · rw [if_pos hok]
  · rw [if_neg hok]
    simp only
    have hset : ∀ f : DFile, findFile (setFile fs dest f) q = findFile fs q := by
      intro f
      rw [findFile_setFile, if_neg (fun hq => h hq.symm)]
    rcases (tr.getOf doc).streamErr with _ | e
    · simp only
      rcases (tr.getOf doc).lastModified with _ | _ | t
      · exact hset _
      · exact hset _
      · simp only
        rw [findFile_setFile, if_neg (fun hq => h hq.symm)]
        exact hset _
    · exact hset _

/-- Whether the fetch of a document succeeds or raises is a function of the
transport alone, not of the filesystem state. -/
theorem download_document_fst (tr : Transport) (doc : Document) (dest : Pth)
    (now : DateTime) (fs fs' : FS) :
    (download_document tr doc dest now fs).1
      = (download_document tr doc dest now fs').1 := by
  unfold download_document
  by_cases hok : (tr.getOf doc).ok = false
  · rw [if_pos hok, if_pos hok]
  · rw [if_neg hok, if_neg hok]
    simp only
    rcases (tr.getOf doc).streamErr with _ | e
    · simp only
      rcases (tr.getOf doc).lastModified with _ | _ | t <;> rfl
    · rfl

/-- `syncSection` distributes over list append, propagating an abort. -/
theorem syncSection_append (tr : Transport) (sec : String) (xs ys : List Document)
    (now : DateTime) (fs : FS) (b : Bundle) :
    syncSection tr sec (xs ++ ys) now fs b
      = match syncSection tr sec xs now fs b with
        | .error e => .error e
        | .ok (fs1, b1) => syncSection tr sec ys now fs1 b1 := by
  induction xs generalizing fs b with
  | nil => simp [syncSection]
  | cons doc rest ih =>
    simp only [List.cons_append, syncSection]
    rcases hu : document_is_up_to_date tr doc (destPath sec doc) now fs with ⟨r, fs1⟩
    dsimp only
    rcases r with e | bv
    · rfl
    · rcases bv with _ | _
      · rcases hd : download_document tr doc (destPath sec doc) now fs1 with ⟨rd, fs2⟩
        dsimp only
        rcases rd with e | u
        · exact ih fs2 b
        · exact ih fs2 _
      · exact ih fs1 b

/-- A successful `syncSection` leaves every path that is not a destination of
one of its descriptors untouched. -/
theorem syncSection_findFile (tr : Transport) (sec : String)
    (docs : List Document) (now : DateTime) (fs : FS) (b : Bundle)
    (fs' : FS) (b' : Bundle)
    (h : syncSection tr sec docs now fs b = .ok (fs', b'))
    (q : Pth) (hq : ∀ doc ∈ docs, destPath sec doc ≠ q) :
    findFile fs' q = findFile fs q := by
  induction docs generalizing fs b with
  | nil =>
    simp only [syncSection, Except.ok.injEq, Prod.mk.injEq] at h
    rw [← h.1]
  | cons doc rest ih =>
    simp only [syncSection] at h
    rcases hu : document_is_up_to_date tr doc (destPath sec doc) now fs with ⟨r, fs1⟩
    rw [hu] at h
    dsimp only at h
    have hfs1 : fs1 = fs := by
      have h2 := document_is_up_to_date_fs tr doc (destPath sec doc) now fs
      rw [hu] at h2
      exact h2
    rw [hfs1] at h
    rcases r with e | bv
    · exact absurd h (by simp)
    · rcases bv with _ | _
      · rcases hd : download_document tr doc (destPath sec doc) now fs with ⟨rd, fs2⟩
        rw [hd] at h
        dsimp only at h
        have hpres : findFile fs2 q = findFile fs q := by
          have h3 := download_document_findFile tr doc (destPath sec doc) now fs q
            (Ne.symm (hq doc (List.mem_cons_self doc rest)))
          rw [hd] at h3
          exact h3
        rcases rd with e | u
        · rw [ih fs2 b h (fun d hd' => hq d (List.mem_cons_of_mem _ hd')), hpres]
        · rw [ih fs2 _ h (fun d hd' => hq d (List.mem_cons_of_mem _ hd')), hpres]
      · exact ih fs b h (fun d hd => hq d (List.mem_cons_of_mem _ hd))

/-- When the display name matches the effective-date pattern and the parsed
date is strictly in the future, the oracle returns `True` (the
NotYetEffective skip) without consulting transport or filesystem. -/
theorem effective_gate_oracle (tr : Transport) (doc : Document) (dest : Pth)
    (now : DateTime) (fs : FS) (g1 g2 : List Char) (eff : DateTime)
    (h1 : scanMatch doc.name.toList = some (g1, g2))
    (h2 : strptimeDMY (g1 ++ g2) = some eff)
    (h3 : DateTime.lt now eff = true) :
    document_is_up_to_date tr doc dest now fs = (.ok true, fs) := by
  unfold document_is_up_to_date
  rw [h1]
  dsimp only
  rw [h2]
  dsimp only
  rw [h3]
  simp

/-- A not-yet-effective document contributes nothing to the run: no fetch (the
filesystem is passed on unchanged) and no bundle entry. -/
theorem effective_gate_skip (tr : Transport) (sec : String) (doc : Document)
    (rest : List Document) (now : DateTime) (fs : FS) (b : Bundle)
    (g1 g2 : List Char) (eff : DateTime)
    (h1 : scanMatch doc.name.toList = some (g1, g2))
    (h2 : strptimeDMY (g1 ++ g2) = some eff)
    (h3 : DateTime.lt now eff = true) :
    syncSection tr sec (doc :: rest) now fs b = syncSection tr sec rest now fs b := by
  simp only [syncSection]
  rw [effective_gate_oracle tr doc (destPath sec doc) now fs g1 g2 eff h1 h2 h3]

/-- A display name the pattern does not match falls through to the metadata
check. -/
theorem no_gate_fallthrough (tr : Transport) (doc : Document) (dest : Pth)
    (now : DateTime) (fs : FS) (h : scanMatch doc.name.toList = none) :
    document_is_up_to_date tr doc dest now fs = (metadataCheck tr doc dest fs, fs) := by
  unfold document_is_up_to_date
  rw [h]

/-! ## Claim theorems -/

/-- C10: evaluating a descriptor's freshness is read-only on the local
filesystem: the translation of lines 75-110 contains no write operation, so
for every transport, descriptor, destination path, instant and filesystem
state, `document_is_up_to_date` returns the state unchanged -- whichever
verdict it returns or exception value it carries. -/
theorem c10_oracle_readonly (tr : Transport) (doc : Document) (dest : Pth)
    (now : DateTime) (fs : FS) :
    (document_is_up_to_date tr doc dest now fs).2 = fs := by
  unfold document_is_up_to_date
  rcases scanMatch doc.name.toList with _ | ⟨g1, g2⟩
  · rfl
  · simp only
    rcases strptimeDMY (g1 ++ g2) with _ | eff
    · rfl
    · simp only
      split <;> rfl

/-- C2: (i) whenever the display name matches the fixed pattern and the date
built from start day, month and year is strictly in the future of the current
UTC instant, the oracle returns the NotYetEffective skip regardless of local
file state; (ii) the synchronizer then neither fetches nor bundles the
document; (iii) in the range form `day to day` the range end is parsed but
discarded -- the captured groups of `effective 4 to 6 April 2024` and of
`effective 4 to 28 April 2024` coincide and retain only the start day; (iv) a
display name that does not match the pattern falls through to the metadata
check. -/
theorem c2_effective_gate :
    (∀ (tr : Transport) (doc : Document) (dest : Pth) (now : DateTime) (fs : FS)
       (g1 g2 : List Char) (eff : DateTime),
       scanMatch doc.name.toList = some (g1, g2) →
       strptimeDMY (g1 ++ g2) = some eff →
       DateTime.lt now eff = true →
       document_is_up_to_date tr doc dest now fs = (.ok true, fs))
  ∧ (∀ (tr : Transport) (sec : String) (doc : Document) (rest : List Document)
       (now : DateTime) (fs : FS) (b : Bundle) (g1 g2 : List Char) (eff : DateTime),
       scanMatch doc.name.toList = some (g1, g2) →
       strptimeDMY (g1 ++ g2) = some eff →
       DateTime.lt now eff = true →
       syncSection tr sec (doc :: rest) now fs b = syncSection tr sec rest now fs b)
  ∧ (scanMatch ("SUP effective 4 to 6 April 2024".toList)
        = some ("4".toList, " April 2024".toList)
     ∧ scanMatch ("SUP effective 4 to 28 April 2024".toList)
        = some ("4".toList, " April 2024".toList))
  ∧ (∀ (tr : Transport) (doc : Document) (dest : Pth) (now : DateTime) (fs : FS),
       scanMatch doc.name.toList = none →
       document_is_up_to_date tr doc dest now fs = (metadataCheck tr doc dest fs, fs)) :=
  ⟨fun tr doc dest now fs g1 g2 eff h1 h2 h3 =>
     effective_gate_oracle tr doc dest now fs g1 g2 eff h1 h2 h3,
   fun tr sec doc rest now fs b g1 g2 eff h1 h2 h3 =>
     effective_gate_skip tr sec doc rest now fs b g1 g2 eff h1 h2 h3,
   by decide,
   fun tr doc dest now fs h => no_gate_fallthrough tr doc dest now fs h⟩

/-- Concrete transport used by the C2 witness. -/
def c2wTr : Transport :=
  ⟨fun _ => ⟨true, some "application/pdf", Hdr.missing⟩,
   fun _ => ⟨true, [], none, Hdr.missing⟩⟩

/-- Descriptor of the C2 witness: effective 2024-04-04. -/
def c2wDoc : Document := ⟨"ENR 1.1 effective 4 April 2024", "/d/a.pdf"⟩

/-- C2 witness: the gate fires on a concrete not-yet-effective descriptor at
current instant 2024-01-01, and the synchronizer drops it. -/
theorem c2_effective_gate_witness :
    document_is_up_to_date c2wTr c2wDoc ("ENR", "a.pdf") ⟨2024, 1, 1, 0, 0, 0⟩ []
        = (.ok true, [])
  ∧ syncSection c2wTr "ENR" [c2wDoc] ⟨2024, 1, 1, 0, 0, 0⟩ [] []
        = syncSection c2wTr "ENR" [] ⟨2024, 1, 1, 0, 0, 0⟩ [] [] :=
  ⟨c2_effective_gate.1 c2wTr c2wDoc ("ENR", "a.pdf") ⟨2024, 1, 1, 0, 0, 0⟩ []
     ("4".toList) (" April 2024".toList) ⟨2024, 4, 4, 0, 0, 0⟩
     (by decide) (by decide) (by decide),
   c2_effective_gate.2.1 c2wTr "ENR" c2wDoc [] ⟨2024, 1, 1, 0, 0, 0⟩ [] []
     ("4".toList) (" April 2024".toList) ⟨2024, 4, 4, 0, 0, 0⟩
     (by decide) (by decide) (by decide)⟩

/-! ### C1 -/

/-- Remote last-modified instant `T` of the C1 scenario (2024-03-01). -/
def c1T : DateTime := ⟨2024, 3, 1, 0, 0, 0⟩

/-- A descriptor whose name has no effective-date gate. -/
def c1Doc : Document := ⟨"GEN 1.1", "/d/g.pdf"⟩

/-- Transport of the C1 scenario: HEAD is fine, pdf, declares `c1T`. -/
def c1Tr : Transport :=
  ⟨fun _ => ⟨true, some "application/pdf", Hdr.val c1T⟩,
   fun _ => ⟨true, [], none, Hdr.missing⟩⟩

/-- A local file exactly as the Fetcher leaves it: `st_mtime = st_atime = T`
(propagated by `os.utime`), `st_ctime =` the fetch wall-clock instant
(2024-03-05, after `T`). -/
def c1FileA : DFile := ⟨[1], c1T, c1T, ⟨2024, 3, 5, 0, 0, 0⟩⟩

/-- A local file whose stored modification instant is strictly after `T`
(`st_mtime` 2024-03-02, set by a utime call made at wall-clock 2024-02-28,
which is therefore its `st_ctime`). -/
def c1FileB : DFile := ⟨[1], ⟨2024, 3, 2, 0, 0, 0⟩, ⟨2024, 3, 2, 0, 0, 0⟩, ⟨2024, 2, 28, 0, 0, 0⟩⟩

/-- C1 (falsified on the code): the claim reads the verdict off the file's
stored modification instant (`st_mtime`), but line 103 reads
`dest_file.stat().st_ctime`.  Conjunct 1: a file whose stored modification
instant is NOT after `T` (it equals `T`, exactly as the Fetcher stamps it)
still gets `UpToDate` because its `st_ctime` is the later fetch instant.
Conjunct 2: a file whose stored modification instant IS strictly after `T`
gets `NeedsFetch` because its `st_ctime` precedes `T`. -/
theorem c1_ctime_not_mtime_eval :
    (¬ DateTime.lt c1T c1FileA.mtime = true
      ∧ document_is_up_to_date c1Tr c1Doc ("GEN", "g.pdf") ⟨2024, 3, 10, 0, 0, 0⟩
          [(("GEN", "g.pdf"), c1FileA)]
          = (.ok true, [(("GEN", "g.pdf"), c1FileA)]))
  ∧ (DateTime.lt c1T c1FileB.mtime = true
      ∧ document_is_up_to_date c1Tr c1Doc ("GEN", "g.pdf") ⟨2024, 3, 10, 0, 0, 0⟩
          [(("GEN", "g.pdf"), c1FileB)]
          = (.ok false, [(("GEN", "g.pdf"), c1FileB)])) := by
  decide

/-! ### C5 -/

/-- Declared last-modified instant of the C5 scenario. -/
def c5T : DateTime := ⟨2024, 3, 1, 0, 0, 0⟩

/-- Transfer completion instant of the C5 scenario. -/
def c5Now : DateTime := ⟨2024, 6, 1, 12, 0, 0⟩

/-- The fetched descriptor of the C5 scenario. -/
def c5Doc : Document := ⟨"D", "/d/p.pdf"⟩

/-- Transport whose GET declares `Last-Modified: c5T`. -/
def c5TrWith : Transport :=
  ⟨fun _ => ⟨true, some "application/pdf", Hdr.val c5T⟩,
   fun _ => ⟨true, [[1]], none, Hdr.val c5T⟩⟩

/-- Transport whose GET carries no `Last-Modified` header at all. -/
def c5TrWithout : Transport :=
  ⟨fun _ => ⟨true, some "application/pdf", Hdr.missing⟩,
   fun _ => ⟨true, [[1]], none, Hdr.missing⟩⟩

/-- C5 (first half true, second half falsified on the code): with a declared
last-modified instant the destination file's modification and access
timestamps are set exactly to it (first conjunct, `mtime = atime = c5T`, not
the wall-clock `c5Now`).  But when the resource declares no last-modified
instant, line 68 `resp.headers['Last-Modified']` raises `KeyError`, so the
fetch does NOT succeed: it returns an error (after having written the file
with write-time stamps), and `sync`'s handler then treats the document as
failed instead of bundling it. -/
theorem c5_timestamp_propagation_eval :
    download_document c5TrWith c5Doc ("GEN", "p.pdf") c5Now []
        = (.ok (), [(("GEN", "p.pdf"), ⟨[1], c5T, c5T, c5Now⟩)])
  ∧ download_document c5TrWithout c5Doc ("GEN", "p.pdf") c5Now []
        = (.error .keyError, [(("GEN", "p.pdf"), ⟨[1], c5Now, c5Now, c5Now⟩)]) := by
  decide

/-! ### C7 -/

/-- Timestamp of the pre-existing file in the C7 scenario. -/
def c7T0 : DateTime := ⟨2024, 1, 1, 0, 0, 0⟩

/-- Wall-clock instant of the failing transfer in the C7 scenario. -/
def c7Now : DateTime := ⟨2024, 2, 2, 0, 0, 0⟩

/-- The descriptor whose transfer fails mid-stream. -/
def c7Doc : Document := ⟨"D7", "/d/q.pdf"⟩

/-- The pre-existing state: destination holds `[1, 2, 3]`. -/
def c7Fs : FS := [(("GEN", "q.pdf"), ⟨[1, 2, 3], c7T0, c7T0, c7T0⟩)]

/-- Transport whose GET passes the status check, yields one chunk `[9]` and
then raises mid-stream. -/
def c7Tr : Transport :=
  ⟨fun _ => ⟨true, some "application/pdf", Hdr.val c7T0⟩,
   fun _ => ⟨true, [[9]], some .connError, Hdr.val c7T0⟩⟩

/-- C7 (falsified on the code): lines 64-66 stream the body directly into the
final destination file, so when the stream raises after the first chunk the
call errors AND the file at the destination is neither absent nor identical
to its pre-call state -- it holds the truncated content `[9]` in place of
`[1, 2, 3]`. -/
theorem c7_truncated_file_left :
    download_document c7Tr c7Doc ("GEN", "q.pdf") c7Now c7Fs
        = (.error .connError, [(("GEN", "q.pdf"), ⟨[9], c7Now, c7Now, c7Now⟩)])
  ∧ findFile [(("GEN", "q.pdf"), ⟨[9], c7Now, c7Now, c7Now⟩)] ("GEN", "q.pdf")
        = some ⟨[9], c7Now, c7Now, c7Now⟩
  ∧ findFile c7Fs ("GEN", "q.pdf") = some ⟨[1, 2, 3], c7T0, c7T0, c7T0⟩
  ∧ (⟨[9], c7Now, c7Now, c7Now⟩ : DFile) ≠ ⟨[1, 2, 3], c7T0, c7T0, c7T0⟩ := by
  decide

/-! ### C6 -/

/-- Current instant of the spec §8 concrete scenario: 2024-01-01. -/
def c6Now : DateTime := ⟨2024, 1, 1, 0, 0, 0⟩

/-- First descriptor of the scenario. -/
def c6DocA : Document := ⟨"ENR 1.1 effective 4 April 2024", "/d/a.pdf"⟩

/-- Second descriptor of the scenario -- its resource declares NO
last-modified header. -/
def c6DocB : Document := ⟨"ENR 1.2", "/d/b.pdf"⟩

/-- Transport of the scenario: `application/pdf` for both, `b.pdf` without a
`Last-Modified` header. -/
def c6Tr : Transport :=
  ⟨fun d =>
     if d.href = "/d/a.pdf" then ⟨true, some "application/pdf", Hdr.val ⟨2023, 12, 1, 0, 0, 0⟩⟩
     else ⟨true, some "application/pdf", Hdr.missing⟩,
   fun d =>
     if d.href = "/d/a.pdf" then ⟨true, [[5]], none, Hdr.val ⟨2023, 12, 1, 0, 0, 0⟩⟩
     else ⟨true, [[5]], none, Hdr.missing⟩⟩

/-- The two descriptors sit in the standard category ENR. -/
def c6DocsOf : String → List Document := fun s => if s = "ENR" then [c6DocA, c6DocB] else []

/-- C6 (falsified on the code): in the spec §8 scenario, `a.pdf` is indeed
skipped as not yet effective (first conjunct), but probing `b.pdf` reaches
line 96 `head.headers['Last-Modified']` with no such header, which raises
`KeyError` outside any handler: the whole run aborts, and `b.pdf` is neither
fetched nor bundled as `"ENR ENR 1.2"`. -/
theorem c6_scenario_eval :
    document_is_up_to_date c6Tr c6DocA ("ENR", "a.pdf") c6Now [] = (.ok true, [])
  ∧ sync c6Tr c6DocsOf c6Now [] = .error .keyError := by
  decide

/-! ### C4 -/

/-- Remote last-modified instant of the C4 scenario. -/
def c4T : DateTime := ⟨2024, 3, 1, 0, 0, 0⟩

/-- The single descriptor of the C4 scenario. -/
def c4Doc : Document := ⟨"Doc", "/d/x.pdf"⟩

/-- Unchanging transport ("no upstream changes"): both runs see it. -/
def c4Tr : Transport :=
  ⟨fun _ => ⟨true, some "application/pdf", Hdr.val c4T⟩,
   fun _ => ⟨true, [[7, 7]], none, Hdr.val c4T⟩⟩

/-- One document in the standard category GEN. -/
def c4DocsOf : String → List Document := fun s => if s = "GEN" then [c4Doc] else []

/-- Wall-clock instant of run 1. -/
def c4Now1 : DateTime := ⟨2024, 6, 1, 0, 0, 0⟩

/-- Wall-clock instant of run 2. -/
def c4Now2 : DateTime := ⟨2024, 6, 2, 0, 0, 0⟩

/-- The local file left by run 1: content fetched, `mtime = atime = c4T`,
`ctime =` run-1 wall clock. -/
def c4File : DFile := ⟨[7, 7], c4T, c4T, c4Now1⟩

/-- Run 1's bundle: the one fetched document. -/
def c4B1 : Bundle := [(("GEN", "x.pdf"), "GEN Doc")]

/-- Filesystem after run 1. -/
def c4FsR1 : FS :=
  [(bundlePath, ⟨encodeBundle c4B1, c4Now1, c4Now1, c4Now1⟩), (("GEN", "x.pdf"), c4File)]

/-- Filesystem after run 2: the only change is the bundle file, rewritten
from an EMPTY entry list. -/
def c4FsR2 : FS :=
  [(bundlePath, ⟨encodeBundle [], c4Now2, c4Now2, c4Now2⟩), (("GEN", "x.pdf"), c4File)]

/-- C4 (falsified on the code): two successive runs with no upstream changes.
Run 1 fetches and bundles the document.  On run 2 the verdict is indeed
`UpToDate` (second conjunct) and nothing is fetched (the document file is
byte- and stamp-identical after run 2), but line 153's `continue` skips the
bundle append for up-to-date documents, so run 2 writes a bundle with ZERO
entries -- not a bundle with identical content and ordering (fourth
conjunct). -/
theorem c4_second_run_empty_bundle :
    sync c4Tr c4DocsOf c4Now1 [] = .ok (c4FsR1, c4B1)
  ∧ (document_is_up_to_date c4Tr c4Doc ("GEN", "x.pdf") c4Now2 c4FsR1).1 = .ok true
  ∧ sync c4Tr c4DocsOf c4Now2 c4FsR1 = .ok (c4FsR2, [])
  ∧ c4B1 ≠ ([] : Bundle) :=
  ⟨by decide, by decide, by decide, by decide⟩

/-! ### C3 -/

/-- Current instant of the C3 scenarios. -/
def c3Now : DateTime := ⟨2024, 5, 1, 0, 0, 0⟩

/-- Descriptor whose HEAD probe fails with a bad status. -/
def c3DocX : Document := ⟨"X", "/d/x.pdf"⟩

/-- A perfectly healthy descriptor after it. -/
def c3DocY : Document := ⟨"Y", "/d/y.pdf"⟩

/-- Transport for the C3 counterexample: the HEAD of `/d/x.pdf` has a
non-success status (`raise_for_status` raises); everything else is fine. -/
def c3Tr : Transport :=
  ⟨fun d =>
     if d.href = "/d/x.pdf" then ⟨false, some "application/pdf", Hdr.missing⟩
     else ⟨true, some "application/pdf", Hdr.val ⟨2024, 1, 1, 0, 0, 0⟩⟩,
   fun _ => ⟨true, [[3]], none, Hdr.val ⟨2024, 1, 1, 0, 0, 0⟩⟩⟩

/-- The two documents sit in the standard category GEN. -/
def c3DocsOf : String → List Document := fun s => if s = "GEN" then [c3DocX, c3DocY] else []

/-- C3 (falsified on the code for the metadata probe): a `TransferError` in
the HEAD probe of document #1 is raised on line 153, OUTSIDE the
`try/except` of lines 156-160, so the whole run aborts (first conjunct) and
document #2 -- which on its own would be fetched and bundled (second
conjunct) -- is never processed. -/
theorem c3_head_failure_aborts_run :
    sync c3Tr c3DocsOf c3Now [] = .error .httpError
  ∧ syncSection c3Tr "GEN" [c3DocY] c3Now [] []
      = .ok ([(("GEN", "y.pdf"),
              ⟨[3], ⟨2024, 1, 1, 0, 0, 0⟩, ⟨2024, 1, 1, 0, 0, 0⟩, c3Now⟩)],
             [(("GEN", "y.pdf"), "GEN Y")]) :=
  ⟨by decide, by decide⟩

/-- C3 (amended): a `TransferError` raised during the BODY transfer of one
document is recovered inside the category synchronizer: the failing document
is skipped (it adds no bundle entry -- the bundle accumulated over `pre` is
passed through unchanged) and the remaining documents are still processed, in
their original relative order, from the post-failure filesystem state.  A
`TransferError` raised during the metadata probe instead propagates and
aborts the run (see the counterexample theorem). -/
theorem c3_body_failure_isolated (tr : Transport) (sec : String)
    (pre post : List Document) (bad : Document) (now : DateTime)
    (fs fs1 : FS) (b b1 : Bundle)
    (hpre : syncSection tr sec pre now fs b = .ok (fs1, b1))
    (horacle : (document_is_up_to_date tr bad (destPath sec bad) now fs1).1 = .ok false)
    (hfail : ∃ e, (download_document tr bad (destPath sec bad) now fs1).1 = .error e) :
    syncSection tr sec (pre ++ bad :: post) now fs b
      = syncSection tr sec post now
          (download_document tr bad (destPath sec bad) now fs1).2 b1 := by
  rw [syncSection_append, hpre]
  dsimp only
  simp only [syncSection]
  rw [document_is_up_to_date_fs, horacle]
  dsimp only
  obtain ⟨e, he⟩ := hfail
  rw [he]

/-- Healthy descriptor ahead of the failing one in the C3 witness. -/
def c3wDocA : Document := ⟨"A", "/d/a.pdf"⟩

/-- The C3 witness descriptor whose GET has a non-success status. -/
def c3wDocB : Document := ⟨"B", "/d/b.pdf"⟩

/-- Healthy descriptor after the failing one in the C3 witness. -/
def c3wDocC : Document := ⟨"C", "/d/c.pdf"⟩

/-- Transport of the C3 witness: all HEADs fine; the GET of `/d/b.pdf`
fails its status check. -/
def c3wTr : Transport :=
  ⟨fun _ => ⟨true, some "application/pdf", Hdr.val ⟨2024, 1, 1, 0, 0, 0⟩⟩,
   fun d =>
     if d.href = "/d/b.pdf" then ⟨false, [], none, Hdr.missing⟩
     else ⟨true, [[2]], none, Hdr.val ⟨2024, 1, 1, 0, 0, 0⟩⟩⟩

/-- Wall-clock instant of the C3 witness run. -/
def c3wNow : DateTime := ⟨2024, 5, 1, 0, 0, 0⟩

/-- Filesystem after processing the `pre` part of the C3 witness. -/
def c3wFs1 : FS :=
  [(("GEN", "a.pdf"), ⟨[2], ⟨2024, 1, 1, 0, 0, 0⟩, ⟨2024, 1, 1, 0, 0, 0⟩, c3wNow⟩)]

/-- C3 witness: concrete three-document category where #2's body transfer
fails; the isolation theorem applies with every hypothesis discharged by
evaluation. -/
theorem c3_body_failure_isolated_witness :
    syncSection c3wTr "GEN" ([c3wDocA] ++ c3wDocB :: [c3wDocC]) c3wNow [] []
      = syncSection c3wTr "GEN" [c3wDocC] c3wNow
          (download_document c3wTr c3wDocB (destPath "GEN" c3wDocB) c3wNow c3wFs1).2
          [(("GEN", "a.pdf"), "GEN A")] :=
  c3_body_failure_isolated c3wTr "GEN" [c3wDocA] [c3wDocC] c3wDocB c3wNow
    [] c3wFs1 [] [(("GEN", "a.pdf"), "GEN A")]
    (by decide) (by decide) ⟨.httpError, by decide⟩

/-! ### C9 -/

/-- C9 (falsified on the code): line 150 computes
`section_path / Path(document.href).name` for EVERY section, including the
volatile SUP category; the destination is a function of the locator only.
Two SUP descriptors with the same locator but entirely different display
names map to the same destination, which carries the locator's final
segment, not anything derived from the display name. -/
theorem c9_sup_dest_ignores_name :
    destPath "SUP" ⟨"Supplement One", "/d/sup1.pdf"⟩ = ("SUP", "sup1.pdf")
  ∧ destPath "SUP" ⟨"A Completely Different Display Name", "/d/sup1.pdf"⟩
      = ("SUP", "sup1.pdf") :=
  ⟨by decide, by decide⟩

/-- C9 (amended): for every category -- standard AND volatile alike -- the
destination path is the category subdirectory joined with the final path
segment of the descriptor's resource locator; the display name enters only
the bookmark label (bare for SUP, category-prefixed otherwise). -/
theorem c9_dest_from_locator (tr : Transport) (sec : String) (doc : Document)
    (rest : List Document) (now : DateTime) (fs : FS) (b : Bundle)
    (hup : (document_is_up_to_date tr doc (sec, lastSegment doc.href) now fs).1 = .ok false)
    (hok : (download_document tr doc (sec, lastSegment doc.href) now fs).1 = .ok ()) :
    syncSection tr sec (doc :: rest) now fs b
      = syncSection tr sec rest now
          (download_document tr doc (sec, lastSegment doc.href) now fs).2
          (b ++ [((sec, lastSegment doc.href),
                  if sec = "SUP" then doc.name else sec ++ " " ++ doc.name)]) := by
  simp only [syncSection, destPath]
  rw [document_is_up_to_date_fs, hup]
  dsimp only
  rw [hok]

/-- The SUP descriptor of the C9 witness. -/
def c9wDoc : Document := ⟨"Supplement One", "/d/sup1.pdf"⟩

/-- Transport of the C9 witness: everything healthy. -/
def c9wTr : Transport :=
  ⟨fun _ => ⟨true, some "application/pdf", Hdr.val ⟨2024, 1, 1, 0, 0, 0⟩⟩,
   fun _ => ⟨true, [[4]], none, Hdr.val ⟨2024, 1, 1, 0, 0, 0⟩⟩⟩

/-- Wall-clock instant of the C9 witness run. -/
def c9wNow : DateTime := ⟨2024, 5, 1, 0, 0, 0⟩

/-- C9 witness: the amended theorem applied to a concrete SUP descriptor:
its file lands at `SUP/sup1.pdf` (from the locator) while the bookmark label
is the bare display name. -/
theorem c9_dest_from_locator_witness :
    syncSection c9wTr "SUP" [c9wDoc] c9wNow [] []
      = syncSection c9wTr "SUP" [] c9wNow
          (download_document c9wTr c9wDoc ("SUP", lastSegment c9wDoc.href) c9wNow []).2
          ([] ++ [(("SUP", lastSegment c9wDoc.href),
                   if "SUP" = "SUP" then c9wDoc.name else "SUP" ++ " " ++ c9wDoc.name)]) :=
  c9_dest_from_locator c9wTr "SUP" c9wDoc [] c9wNow [] [] (by decide) (by decide)

/-! ### C8 -/

/-- C8: in a completed run, the SUP subdirectory is wiped wholesale before
its descriptors are processed (absence tolerated), so no file survives in it
under any name that is not the destination filename of a CURRENT SUP
descriptor -- whatever was there before the run. -/
theorem c8_volatile_wipe (tr : Transport) (docsOf : String → List Document)
    (now : DateTime) (fs fs' : FS) (b : Bundle) (p : String)
    (hrun : sync tr docsOf now fs = .ok (fs', b))
    (hnot : ∀ doc ∈ docsOf "SUP", lastSegment doc.href ≠ p) :
    findFile fs' ("SUP", p) = none := by
  unfold sync at hrun
  rcases hS : syncSections tr docsOf now sectionsList fs [] with e | ⟨fsS, bS⟩
  · rw [hS] at hrun
    exact absurd hrun (by simp)
  · rw [hS] at hrun
    dsimp only at hrun
    have hfs' : fs' = setFile fsS bundlePath ⟨encodeBundle bS, now, now, now⟩ := by
      injection hrun with h1
      injection h1 with h2 h3
      exact h2.symm
    rw [hfs', findFile_setFile]
    rw [if_neg (fun hc => by
      have h5 : ("" : String) = "SUP" := congrArg Prod.fst hc
      exact absurd h5 (by decide))]
    -- peel the four sections off the successful chain
    simp only [sectionsList, syncSections] at hS
    rcases h1 : syncSection tr "GEN" (docsOf "GEN") now (wipeStep "GEN" fs) [] with e1 | ⟨fsA, bA⟩
    · rw [h1] at hS
      exact absurd hS (by simp)
    · rw [h1] at hS
      dsimp only at hS
      rcases h2 : syncSection tr "ENR" (docsOf "ENR") now (wipeStep "ENR" fsA) bA with e2 | ⟨fsB, bB⟩
      · rw [h2] at hS
        exact absurd hS (by simp)
      · rw [h2] at hS
        dsimp only at hS
        rcases h3 : syncSection tr "AD" (docsOf "AD") now (wipeStep "AD" fsB) bB with e3 | ⟨fsC, bC⟩
        · rw [h3] at hS
          exact absurd hS (by simp)
        · rw [h3] at hS
          dsimp only at hS
          rcases h4 : syncSection tr "SUP" (docsOf "SUP") now (wipeStep "SUP" fsC) bC with e4 | ⟨fsD, bD⟩
          · rw [h4] at hS
            exact absurd hS (by simp)
          · rw [h4] at hS
            dsimp only at hS
            have hfsS : fsS = fsD := by
              injection hS with hS1
              injection hS1 with hS2 hS3
              exact hS2.symm
            rw [hfsS]
            rw [syncSection_findFile tr "SUP" (docsOf "SUP") now (wipeStep "SUP" fsC) bC fsD bD h4
                  ("SUP", p)
                  (fun d hd he => hnot d hd (congrArg Prod.snd he))]
            exact wipeStep_sup_findFile fsC p

/-- Current SUP descriptor of the C8 witness. -/
def c8wDoc : Document := ⟨"S1", "/d/s1.pdf"⟩

/-- Transport of the C8 witness: everything healthy. -/
def c8wTr : Transport :=
  ⟨fun _ => ⟨true, some "application/pdf", Hdr.val ⟨2024, 1, 1, 0, 0, 0⟩⟩,
   fun _ => ⟨true, [[8]], none, Hdr.val ⟨2024, 1, 1, 0, 0, 0⟩⟩⟩

/-- The C8 witness descriptor list: one SUP document, nothing else. -/
def c8wDocsOf : String → List Document := fun s => if s = "SUP" then [c8wDoc] else []

/-- Wall-clock instant of the C8 witness run. -/
def c8wNow : DateTime := ⟨2024, 7, 1, 0, 0, 0⟩

/-- Timestamp of the stale pre-existing SUP file in the C8 witness. -/
def c8wT0 : DateTime := ⟨2023, 1, 1, 0, 0, 0⟩

/-- Pre-run filesystem of the C8 witness: a stale `SUP/old.pdf` from an
earlier run, no longer in the descriptor list. -/
def c8wFs0 : FS := [(("SUP", "old.pdf"), ⟨[1], c8wT0, c8wT0, c8wT0⟩)]

/-- Run-1 bundle of the C8 witness. -/
def c8wB : Bundle := [(("SUP", "s1.pdf"), "S1")]

/-- Post-run filesystem of the C8 witness. -/
def c8wFsAfter : FS :=
  [(bundlePath, ⟨encodeBundle c8wB, c8wNow, c8wNow, c8wNow⟩),
   (("SUP", "s1.pdf"), ⟨[8], ⟨2024, 1, 1, 0, 0, 0⟩, ⟨2024, 1, 1, 0, 0, 0⟩, c8wNow⟩)]

/-- C8 witness: after one concrete completed run, the stale `SUP/old.pdf` is
gone. -/
theorem c8_volatile_wipe_witness :
    findFile c8wFsAfter ("SUP", "old.pdf") = none :=
  c8_volatile_wipe c8wTr c8wDocsOf c8wNow c8wFs0 c8wFsAfter c8wB "old.pdf"
    (by decide) (by decide)

end AIP
